import Mathlib

/-!
Verification of the srm-solver core against its specification.

Shallow embedding of:
  * the BATES grain model (src/srm_solver/models/motor/bates.py),
  * the isentropic-flow and correction-factor functions
    (src/srm_solver/functions/isentropic_flow.py),
  * the FMM grain segment (src/rocketsolver/models/propulsion/grain/fmm).

Python floats are modelled as real numbers, numpy vectors as index
functions or lists, and a raised Python exception as the error case of
`Except String`.
-/

noncomputable section

open Classical

/-- Modelled from the spec: `get_circle_area` from `utils.geometric`, a module
of this repository that is not under src/. bates.py imports it
(`from utils.geometric import get_circle_area`), so the name is bound in
bates.py's namespace — and only there; isentropic_flow.py never imports it.
The spec calls it "the flow cross-section (core area at current web)": the
area of a circle of the given diameter. -/
def get_circle_area (diameter : ℝ) : ℝ :=
  Real.pi * diameter ^ 2 / 4

/-- The constructor state of `Bates` (src/srm_solver/models/motor/bates.py).
The numpy-array fields `core_diameter` and `segment_length` are modelled as
index functions. -/
structure Bates where
  segment_count : ℕ
  segment_spacing : ℝ
  outer_diameter : ℝ
  core_diameter : ℕ → ℝ
  segment_length : ℕ → ℝ

/-- `Bates.get_burn_area_per_segment`: if `0.5 * (D_grain - D_core[i]) >= web`
the annulus-plus-core formula, otherwise 0. -/
def Bates.get_burn_area_per_segment (b : Bates) (segment_index : ℕ)
    (web_thickness : ℝ) : ℝ :=
  if 0.5 * (b.outer_diameter - b.core_diameter segment_index) ≥ web_thickness then
    Real.pi * (
      ((b.outer_diameter ^ 2)
          - (b.core_diameter segment_index + 2 * web_thickness) ^ 2) / 2
        + ((b.segment_length segment_index - 2 * web_thickness)
            * (b.core_diameter segment_index + 2 * web_thickness)))
  else 0

/-- `Bates.get_propellant_volume_per_segment`: same guard as the burn area,
with the cylindrical-shell volume formula. -/
def Bates.get_propellant_volume_per_segment (b : Bates) (x : ℝ) (j : ℕ) : ℝ :=
  if 0.5 * (b.outer_diameter - b.core_diameter j) ≥ x then
    (Real.pi / 4) * (((b.outer_diameter ^ 2) - ((b.core_diameter j + 2 * x) ^ 2))
      * (b.segment_length j - 2 * x))
  else 0

/-- `Bates.get_burn_area`: the per-segment burn areas summed over all
segments. Signature `def get_burn_area(self, x)`: exactly one parameter
besides `self`. -/
def Bates.get_burn_area (b : Bates) (x : ℝ) : ℝ :=
  ∑ i ∈ Finset.range b.segment_count, b.get_burn_area_per_segment i x

/-- The exception Python raises for a call that passes more positional
arguments than `get_burn_area` declares. -/
def typeErrorGetBurnArea : String :=
  "TypeError: get_burn_area takes 2 positional arguments but 3 were given"

/-- Python positional-call semantics for `Bates.get_burn_area`: the method
declares exactly one parameter besides `self`, so a call with any other
number of positional arguments raises `TypeError` before the body runs. -/
def Bates.call_get_burn_area (b : Bates) (args : List ℝ) : Except String ℝ :=
  if h : args.length = 1 then
    Except.ok (b.get_burn_area (args.get ⟨0, by omega⟩))
  else
    Except.error typeErrorGetBurnArea

/-- The `for k in range(j + 1)` accumulation inside
`Bates.get_mass_flux_per_segment`:
`total_grain_Ab[j, i] = total_grain_Ab[j, i] + self.get_burn_area(x[i], k)`.
The source passes the two positional arguments `(x[i], k)`. -/
def Bates.total_grain_Ab (b : Bates) (xi : ℝ) : ℕ → Except String ℝ
  | 0 => do
    let a ← b.call_get_burn_area [xi, ((0 : ℕ) : ℝ)]
    pure (0 + a)
  | j + 1 => do
    let acc ← b.total_grain_Ab xi j
    let a ← b.call_get_burn_area [xi, ((j + 1 : ℕ) : ℝ)]
    pure (acc + a)

/-- One entry `(j, i)` of `Bates.get_mass_flux_per_segment`: the accumulated
burn area times density and burn rate, divided by the circle area of
`core_diameter[j] + x[i]`. -/
def Bates.mass_flux_entry (b : Bates) (burn_rate : List ℝ)
    (propellant_density : ℝ) (x : List ℝ) (j i : ℕ) : Except String ℝ := do
  let totalAb ← b.total_grain_Ab (x.getD i 0) j
  pure (totalAb * propellant_density * burn_rate.getD i 0
    / get_circle_area (b.core_diameter j + x.getD i 0))

/-- Error-propagating map over a list of loop indices: the Python nested
`for` loops stop at the first raised exception. -/
def exceptMapIdx {α : Type} (f : ℕ → Except String α) :
    List ℕ → Except String (List α)
  | [] => Except.ok []
  | i :: is => do
    let v ← f i
    let rest ← exceptMapIdx f is
    pure (v :: rest)

/-- `Bates.get_mass_flux_per_segment`: row `j` ranges over the segments,
column `i` over `range(np.size(burn_rate))`. -/
def Bates.get_mass_flux_per_segment (b : Bates) (burn_rate : List ℝ)
    (propellant_density : ℝ) (x : List ℝ) : Except String (List (List ℝ)) :=
  exceptMapIdx
    (fun j => exceptMapIdx
      (fun i => b.mass_flux_entry burn_rate propellant_density x j i)
      (List.range burn_rate.length))
    (List.range b.segment_count)

/-- The constructor state of `FMMGrainSegment`
(src/rocketsolver/models/propulsion/grain/fmm/__init__.py), restricted to the
fields its methods under scrutiny read. -/
structure FMMGrainSegment where
  map_dim : ℕ
  length : ℝ
  outer_diameter : ℝ
  spacing : ℝ
  inhibited_ends : ℕ

/-- Modelled from the spec: `GrainSegment.validate` (the base class is not
under src/). The spec says validation "fails with GeometryError when
dimensions are non-physical (non-positive lengths/diameters ...)". It does
not touch `map_dim`. -/
def FMMGrainSegment.base_dimensions_ok (g : FMMGrainSegment) : Prop :=
  0 < g.length ∧ 0 < g.outer_diameter ∧ 0 ≤ g.spacing

/-- `FMMGrainSegment.validate`: runs the base validation, asserts
`map_dim >= 100`, then executes `self.map_dim = 10`. The
`validate_assertions` decorator turns a failed assert into a
`GrainGeometryError`; a successful call returns the mutated instance. -/
def FMMGrainSegment.validate (g : FMMGrainSegment) :
    Except String FMMGrainSegment :=
  if g.base_dimensions_ok then
    if g.map_dim ≥ 100 then Except.ok { g with map_dim := 10 }
    else Except.error "GrainGeometryError: assert self.map_dim >= 100 failed"
  else Except.error "GrainGeometryError: invalid grain dimensions"

/-- `FMMGrainSegment.normalize`: `value / (0.5 * self.outer_diameter)`. -/
def FMMGrainSegment.normalize (g : FMMGrainSegment) (value : ℝ) : ℝ :=
  value / (0.5 * g.outer_diameter)

/-- `FMMGrainSegment.denormalize`: `(value / 2) * (self.outer_diameter)`. -/
def FMMGrainSegment.denormalize (g : FMMGrainSegment) (value : ℝ) : ℝ :=
  (value / 2) * (g.outer_diameter)

/-- The import list at the head of
src/srm_solver/functions/isentropic_flow.py: the module imports numpy only
(`import numpy as np`), and in particular never imports scipy. -/
def isentropic_flow_imports : List String := ["numpy"]

/-- The residual of the lambda `get_exit_mach` hands to
`scipy.optimize.fsolve`:
`(((1 + 0.5 (k-1) x^2) / (1 + 0.5 (k-1))) ^ ((k+1)/(2 (k-1)))) / x - E`. -/
def exit_mach_residual (k E x : ℝ) : ℝ :=
  (((1 + 0.5 * (k - 1) * x ^ 2) / (1 + 0.5 * (k - 1)))
    ^ ((k + 1) / (2 * (k - 1)))) / x - E

/-- The exception every call to `get_exit_mach` raises: its body evaluates
`scipy.optimize.fsolve(...)`, and the name `scipy` is unbound in the
module. -/
def nameErrorScipy : String := "NameError: name scipy is not defined"

/-- `get_exit_mach`: Python resolves the global name `scipy` before the call
can run; the module imports only numpy, so name resolution fails and the
`fsolve` branch is unreachable (witnessed by `absurd`). -/
def get_exit_mach (k E : ℝ) : Except String ℝ :=
  if h : "scipy" ∈ isentropic_flow_imports then
    absurd h (by decide)
  else Except.error nameErrorScipy

/-- `get_thrust_coeff`: the ideal coefficient from the isentropic formula,
the actual coefficient with the pressure-thrust term and the correction
factor, both floored at 0 by the trailing `if` statements. -/
def get_thrust_coeff (P0 P_exit P_external E k n_cf : ℝ) : ℝ × ℝ :=
  let P_r := P_exit / P0
  let Cf_ideal := Real.sqrt ((2 * (k ^ 2) / (k - 1))
    * ((2 / (k + 1)) ^ ((k + 1) / (k - 1))) * (1 - (P_r ^ ((k - 1) / k))))
  let Cf := (Cf_ideal + E * (P_exit - P_external) / P0) * n_cf
  let Cf_out := if Cf ≤ 0 then 0 else Cf
  let Cf_ideal_out := if Cf_ideal ≤ 0 then 0 else Cf_ideal
  (Cf_out, Cf_ideal_out)

/-- The propellant fields `get_operational_correction_factors` reads. -/
structure Propellant where
  Isp_frozen : ℝ
  Isp_shifting : ℝ
  qsi_ch : ℝ
  M_ch : ℝ

/-- The structure fields `get_operational_correction_factors` reads. -/
structure MotorStructure where
  C1 : ℝ
  C2 : ℝ
  D_throat : ℝ
  Exp_ratio : ℝ

/-- The kinetic-loss branch of `get_operational_correction_factors`:
`33.3 * 200 * (Isp_frozen / Isp_shifting) / P0_psi` when `P0_psi >= 200`,
else 0. -/
def n_kin_factor (P0_psi : ℝ) (propellant : Propellant) : ℝ :=
  if P0_psi ≥ 200 then
    33.3 * 200 * (propellant.Isp_frozen / propellant.Isp_shifting) / P0_psi
  else 0

/-- The exception the `C7 = ...` line of
`get_operational_correction_factors` raises: its right-hand side references
`get_circle_area`, a name the module never imports (numpy is its only
import), so Python fails name resolution there on every subcritical call,
before the band lookup below it can run. -/
def nameErrorGetCircleArea : String :=
  "NameError: name get_circle_area is not defined"

/-- The branching empirical lookup of `C3, C4, C5, C6` in
`get_operational_correction_factors`, transcribed exactly as the source
writes it: note the divisor `0.0245` in the first band test of the
`1 / M_ch < 0.9` family (every other band test divides by `0.0254`). `none`
models the case in which no branch assigns `C3, C5, C6`. At run time these
lines are unreachable — the `C7` line above them raises `NameError` first —
but they are the source text whose band structure the claims examine. -/
def select_C3_C4_C5_C6 (M_ch D_throat C7v : ℝ) : Option (ℝ × ℝ × ℝ × ℝ) :=
  if 1 / M_ch ≥ 0.9 then
    if D_throat / 0.0254 < 1 then some (9, 0.5, 1, 1)
    else if 1 ≤ D_throat / 0.0254 ∧ D_throat / 0.0254 < 2 then
      some (9, 0.5, 1, 0.8)
    else if D_throat / 0.0254 ≥ 2 then
      if C7v < 4 then some (13.4, 0.5, 0.8, 0.8)
      else if 4 ≤ C7v ∧ C7v ≤ 8 then some (10.2, 0.5, 0.8, 0.4)
      else if C7v > 8 then some (7.58, 0.5, 0.8, 0.33)
      else none
    else none
  else if 1 / M_ch < 0.9 then
    if D_throat / 0.0245 < 1 then some (44.5, 1, 0.8, 0.8)
    else if 1 ≤ D_throat / 0.0254 ∧ D_throat / 0.0254 < 2 then
      some (30.4, 1, 0.8, 0.4)
    else if D_throat / 0.0254 ≥ 2 then
      if C7v < 4 then some (44.5, 1, 0.8, 0.8)
      else if 4 ≤ C7v ∧ C7v ≤ 8 then some (30.4, 1, 0.8, 0.4)
      else if C7v > 8 then some (25.2, 1, 0.8, 0.33)
      else none
    else none
  else none

/-- Modelled from the spec for comparison with `select_C3_C4_C5_C6`: the same
lookup table with the meters-to-inches divisor `0.0254` used consistently, as
the spec requires ("these conversions ... must use the constant divisor
0.0254 consistently"). It differs from the source only in the first band test
of the `1 / M_ch < 0.9` family. -/
def select_C3_C4_C5_C6_spec (M_ch D_throat C7v : ℝ) :
    Option (ℝ × ℝ × ℝ × ℝ) :=
  if 1 / M_ch ≥ 0.9 then
    if D_throat / 0.0254 < 1 then some (9, 0.5, 1, 1)
    else if 1 ≤ D_throat / 0.0254 ∧ D_throat / 0.0254 < 2 then
      some (9, 0.5, 1, 0.8)
    else if D_throat / 0.0254 ≥ 2 then
      if C7v < 4 then some (13.4, 0.5, 0.8, 0.8)
      else if 4 ≤ C7v ∧ C7v ≤ 8 then some (10.2, 0.5, 0.8, 0.4)
      else if C7v > 8 then some (7.58, 0.5, 0.8, 0.33)
      else none
    else none
  else if 1 / M_ch < 0.9 then
    if D_throat / 0.0254 < 1 then some (44.5, 1, 0.8, 0.8)
    else if 1 ≤ D_throat / 0.0254 ∧ D_throat / 0.0254 < 2 then
      some (30.4, 1, 0.8, 0.4)
    else if D_throat / 0.0254 ≥ 2 then
      if C7v < 4 then some (44.5, 1, 0.8, 0.8)
      else if 4 ≤ C7v ∧ C7v ≤ 8 then some (30.4, 1, 0.8, 0.4)
      else if C7v > 8 then some (25.2, 1, 0.8, 0.33)
      else none
    else none
  else none

/-- The exception the `n_tp` line would raise if the band lookup assigned no
`C3, C5, C6` and execution reached it: used to state, and refute, the claim
that this is how the function fails. -/
def unboundLocalErrorC3 : String :=
  "UnboundLocalError: local variable C3 referenced before assignment"

/-- `get_operational_correction_factors`: the kinetic loss is computed
first; in the subcritical branch
(`P_external / P0 <= critical_pressure_ratio`) the `termC2`, `E_cf` and
`n_bl` lines evaluate using numpy alone, and then the `C7` line fails name
resolution — `get_circle_area` is unbound in this module (only numpy is
imported, as `isentropic_flow_imports` records) — so every subcritical call
raises `NameError` there and the band lookup and `n_tp` line below are never
reached. The supercritical branch returns `(n_kin, 0, 0)` in the source's
order. -/
def get_operational_correction_factors (P0 P_external P0_psi : ℝ)
    (propellant : Propellant) (struct : MotorStructure)
    (critical_pressure_ratio V0 t : ℝ) : Except String (ℝ × ℝ × ℝ) :=
  let n_kin := n_kin_factor P0_psi propellant
  if P_external / P0 ≤ critical_pressure_ratio then
    let termC2 := 1 + 2 * Real.exp (-struct.C2 * P0_psi ^ (0.8 : ℝ) * t
      / ((struct.D_throat / 0.0254) ^ (0.2 : ℝ)))
    let E_cf := 1 + 0.016 * struct.Exp_ratio ^ (-9 : ℝ)
    let n_bl := struct.C1 * ((P0_psi ^ (0.8 : ℝ))
      / ((struct.D_throat / 0.0254) ^ (0.2 : ℝ))) * termC2 * E_cf
    if h : "get_circle_area" ∈ isentropic_flow_imports then
      absurd h (by decide)
    else Except.error nameErrorGetCircleArea
  else
    Except.ok (n_kin, 0, 0)

/-- A propellant whose chamber molar mass gives `1 / M_ch = 0.5 < 0.9`. -/
def window_propellant : Propellant := ⟨1, 1, 1, 2⟩

/-- A structure whose throat diameter 0.025 m lies in the defective window
`0.0245 ≤ D_throat < 0.0254`. -/
def defect_structure : MotorStructure := ⟨1, 1, 0.025, 1⟩

/-- In the `1 / M_ch < 0.9` family the source tests `D_throat / 0.0245 < 1`
first: for throat diameters in the window `0.0245 ≤ D_throat < 0.0254` no
band test of the lookup matches, so no constants are assigned. -/
theorem select_C3_C4_C5_C6_eq_none (M_ch D_throat C7v : ℝ)
    (hM : 1 / M_ch < 0.9) (hD1 : 0.0245 ≤ D_throat)
    (hD2 : D_throat < 0.0254) :
    select_C3_C4_C5_C6 M_ch D_throat C7v = none := by
  have hlt1 : D_throat / 0.0254 < 1 := (div_lt_one (by norm_num)).mpr hD2
  have hge1 : (1 : ℝ) ≤ D_throat / 0.0245 := (one_le_div (by norm_num)).mpr hD1
  unfold select_C3_C4_C5_C6
  rw [if_neg (not_le.mpr hM), if_pos hM, if_neg (not_lt.mpr hge1),
    if_neg (fun hc => absurd hc.1 (not_le.mpr hlt1)),
    if_neg (not_le.mpr (lt_trans hlt1 (by norm_num)))]

/-- A concrete FMM segment with physically valid dimensions. -/
def fmm_unit_segment : FMMGrainSegment :=
  { map_dim := 100, length := 0.2, outer_diameter := 0.115, spacing := 0.01,
    inhibited_ends := 0 }

/-- C5: every call to `get_exit_mach` fails with a `NameError` (the module
never imports scipy), and in particular not with `NonConvergenceError`: no
root-finding from the initial guess 10 is ever reached. -/
theorem get_exit_mach_name_error (k E : ℝ) :
    get_exit_mach k E = Except.error nameErrorScipy
      ∧ get_exit_mach k E ≠ Except.error "NonConvergenceError" := by
  have h : get_exit_mach k E = Except.error nameErrorScipy := by
    unfold get_exit_mach
    rw [dif_neg (by decide)]
  refine ⟨h, ?_⟩
  rw [h]
  simp [nameErrorScipy]

/-- C6: both components returned by `get_thrust_coeff` are nonnegative for
every input combination: the trailing `if` statements floor them at 0. -/
theorem get_thrust_coeff_nonneg (P0 P_exit P_external E k n_cf : ℝ) :
    0 ≤ (get_thrust_coeff P0 P_exit P_external E k n_cf).1
      ∧ 0 ≤ (get_thrust_coeff P0 P_exit P_external E k n_cf).2 := by
  simp only [get_thrust_coeff]
  constructor
  · split_ifs with h
    · exact le_refl 0
    · exact (lt_of_not_le h).le
  · split_ifs with h
    · exact le_refl 0
    · exact (lt_of_not_le h).le

/-- C8: for a segment with nonzero outer diameter, `denormalize` undoes
`normalize` exactly, for every real input. -/
theorem denormalize_normalize_inverse (g : FMMGrainSegment)
    (h : g.outer_diameter ≠ 0) (x : ℝ) :
    g.denormalize (g.normalize x) = x := by
  unfold FMMGrainSegment.denormalize FMMGrainSegment.normalize
  field_simp
  left
  ring

/-- Witness for C8: the inverse identity evaluated on a concrete segment at
x = 3. -/
theorem denormalize_normalize_inverse_witness :
    fmm_unit_segment.outer_diameter ≠ 0
      ∧ fmm_unit_segment.denormalize (fmm_unit_segment.normalize 3) = 3 :=
  ⟨by norm_num [fmm_unit_segment],
    denormalize_normalize_inverse fmm_unit_segment
      (by norm_num [fmm_unit_segment]) 3⟩

/-- C7: whenever `P_external / P0 > critical_pressure_ratio`, the correction
factors return with `n_tp = 0` and `n_bl = 0` (the kinetic factor alone may
be nonzero). -/
theorem correction_factors_zero_supercritical (P0 P_external P0_psi : ℝ)
    (propellant : Propellant) (struct : MotorStructure)
    (critical_pressure_ratio V0 t : ℝ)
    (h : P_external / P0 > critical_pressure_ratio) :
    get_operational_correction_factors P0 P_external P0_psi propellant struct
        critical_pressure_ratio V0 t
      = Except.ok (n_kin_factor P0_psi propellant, 0, 0) := by
  simp only [get_operational_correction_factors]
  rw [if_neg (not_le.mpr h)]

/-- Witness for C7 at a concrete supercritical input
(`P_external / P0 = 1 > 0.5`). -/
theorem correction_factors_zero_supercritical_witness :
    (1 : ℝ) / 1 > 0.5
      ∧ get_operational_correction_factors 1 1 100 ⟨1, 1, 1, 2⟩
          ⟨1, 1, 0.025, 1⟩ 0.5 1 1
        = Except.ok (n_kin_factor 100 ⟨1, 1, 1, 2⟩, 0, 0) :=
  ⟨by norm_num,
    correction_factors_zero_supercritical 1 1 100 ⟨1, 1, 1, 2⟩
      ⟨1, 1, 0.025, 1⟩ 0.5 1 1 (by norm_num)⟩

/-- C1 (code defect): on a segment with valid dimensions and `map_dim = 100`
the validation returns without raising, and the instance it leaves behind has
`map_dim = 10 < 100`: `validate` overwrites the very invariant it just
asserted. -/
theorem fmm_validate_overwrites_map_dim :
    FMMGrainSegment.validate fmm_unit_segment
        = Except.ok { fmm_unit_segment with map_dim := 10 }
      ∧ ({ fmm_unit_segment with map_dim := 10 } : FMMGrainSegment).map_dim
          < 100 := by
  have hbase : fmm_unit_segment.base_dimensions_ok := by
    unfold FMMGrainSegment.base_dimensions_ok
    norm_num [fmm_unit_segment]
  have hmap : fmm_unit_segment.map_dim ≥ 100 := by norm_num [fmm_unit_segment]
  constructor
  · unfold FMMGrainSegment.validate
    rw [if_pos hbase, if_pos hmap]
  · norm_num [fmm_unit_segment]

/-- Counterexample to C9 as stated: at a concrete input inside the window
(D_throat = 0.025 m, M_ch = 2, subcritical ratio 1/2 below 0.9) the function
fails with `NameError` for `get_circle_area` at the `C7` line, not with the
`UnboundLocalError` for `C3` the claim attributes to the band-lookup gap:
execution never reaches the lookup. -/
theorem correction_factors_window_counterexample :
    get_operational_correction_factors 2 1 100 window_propellant
        defect_structure 0.9 1 1 = Except.error nameErrorGetCircleArea
      ∧ get_operational_correction_factors 2 1 100 window_propellant
          defect_structure 0.9 1 1 ≠ Except.error unboundLocalErrorC3 := by
  have h : get_operational_correction_factors 2 1 100 window_propellant
      defect_structure 0.9 1 1 = Except.error nameErrorGetCircleArea := by
    simp only [get_operational_correction_factors]
    rw [if_pos (by norm_num : (1 : ℝ) / 2 ≤ 0.9), dif_neg (by decide)]
  refine ⟨h, ?_⟩
  rw [h]
  simp [nameErrorGetCircleArea, unboundLocalErrorC3]

/-- C9 as amended: in the window `0.0245 ≤ D_throat < 0.0254` with
`1 / M_ch < 0.9` the band lookup indeed assigns no `C3, C5, C6` (for any
value of `C7`), but that gap is unreachable: every subcritical call to
`get_operational_correction_factors` fails earlier, with the unbound-name
`NameError` for `get_circle_area` raised at the `C7` line, instead of
returning correction factors. -/
theorem correction_factors_window_name_error (P0 P_external P0_psi : ℝ)
    (propellant : Propellant) (struct : MotorStructure)
    (critical_pressure_ratio V0 t C7v : ℝ)
    (hsub : P_external / P0 ≤ critical_pressure_ratio)
    (hM : 1 / propellant.M_ch < 0.9)
    (hD1 : 0.0245 ≤ struct.D_throat) (hD2 : struct.D_throat < 0.0254) :
    select_C3_C4_C5_C6 propellant.M_ch struct.D_throat C7v = none
      ∧ get_operational_correction_factors P0 P_external P0_psi propellant
          struct critical_pressure_ratio V0 t
        = Except.error nameErrorGetCircleArea := by
  refine ⟨select_C3_C4_C5_C6_eq_none _ _ _ hM hD1 hD2, ?_⟩
  simp only [get_operational_correction_factors]
  rw [if_pos hsub, dif_neg (by decide)]

/-- Witness for the amended C9: the window input D_throat = 0.025 m,
M_ch = 2, pressure ratio 1/2 below the critical ratio 0.9, with `C7v = 5`
for the lookup conjunct. -/
theorem correction_factors_window_name_error_witness :
    ((1 : ℝ) / 2 ≤ 0.9 ∧ 1 / window_propellant.M_ch < 0.9
        ∧ (0.0245 : ℝ) ≤ defect_structure.D_throat
        ∧ defect_structure.D_throat < 0.0254)
      ∧ select_C3_C4_C5_C6 window_propellant.M_ch defect_structure.D_throat 5
          = none
      ∧ get_operational_correction_factors 2 1 100 window_propellant
          defect_structure 0.9 1 1 = Except.error nameErrorGetCircleArea :=
  ⟨⟨by norm_num, by norm_num [window_propellant],
      by norm_num [defect_structure], by norm_num [defect_structure]⟩,
    (correction_factors_window_name_error 2 1 100 window_propellant
        defect_structure 0.9 1 1 5 (by norm_num)
        (by norm_num [window_propellant]) (by norm_num [defect_structure])
        (by norm_num [defect_structure])).1,
    (correction_factors_window_name_error 2 1 100 window_propellant
        defect_structure 0.9 1 1 5 (by norm_num)
        (by norm_num [window_propellant]) (by norm_num [defect_structure])
        (by norm_num [defect_structure])).2⟩

/-- C4 (code defect): the source lookup divides the throat diameter by
0.0245 in the first band test of the `1 / M_ch < 0.9` family instead of the
uniform meters-to-inches divisor 0.0254. At `D_throat = 0.025` (inside
`[0.0245, 0.0254)`) the source table assigns nothing, while the
spec-modelled table with 0.0254 everywhere selects the sub-inch band
constants `(44.5, 1, 0.8, 0.8)`. This is a static property of the lookup
text; at run time the lookup is shadowed by the `NameError` the `C7` line
raises on every subcritical call (see the C9 theorems). -/
theorem correction_table_divisor_defect :
    select_C3_C4_C5_C6 2 0.025 5 = none
      ∧ select_C3_C4_C5_C6_spec 2 0.025 5 = some (44.5, 1, 0.8, 0.8) := by
  refine ⟨?_, ?_⟩
  · exact select_C3_C4_C5_C6_eq_none 2 0.025 5 (by norm_num) (by norm_num)
      (by norm_num)
  · norm_num [select_C3_C4_C5_C6_spec]

/-- The spec's scenario segment: outer diameter 115 mm, core 45 mm, length
200 mm, a single segment. -/
def bates_scenario : Bates :=
  { segment_count := 1
    segment_spacing := 0
    outer_diameter := 0.115
    core_diameter := fun _ => 0.045
    segment_length := fun _ => 0.2 }

/-- A single short BATES segment (length 10 mm): it burns through axially
(`2 * web > length`) well before it burns through radially. -/
def bates_short_segment : Bates :=
  { segment_count := 1
    segment_spacing := 0
    outer_diameter := 0.115
    core_diameter := fun _ => 0.045
    segment_length := fun _ => 0.01 }

/-- Counterexample to C2: at web exactly `0.5 * (outer - core)` (fully
radially burned) the guard `0.5 * (D - D_core) >= web` still holds, and the
burn area returned is `pi * (0.2 - 0.07) * 0.115`, not 0. -/
theorem bates_burn_area_nonzero_at_radial_boundary :
    (0.035 : ℝ) = 0.5 * (bates_scenario.outer_diameter
        - bates_scenario.core_diameter 0)
      ∧ bates_scenario.get_burn_area_per_segment 0 0.035 ≠ 0 := by
  constructor
  · norm_num [bates_scenario]
  · unfold Bates.get_burn_area_per_segment
    rw [if_pos (by norm_num [bates_scenario])]
    have h : ((bates_scenario.outer_diameter ^ 2)
        - (bates_scenario.core_diameter 0 + 2 * 0.035) ^ 2) / 2
        + ((bates_scenario.segment_length 0 - 2 * 0.035)
            * (bates_scenario.core_diameter 0 + 2 * 0.035)) = 0.01495 := by
      norm_num [bates_scenario]
    rw [h]
    exact mul_ne_zero Real.pi_ne_zero (by norm_num)

/-- C2 as amended: only for web strictly greater than the remaining radial
wall `0.5 * (outer - core)` do the per-segment burn area and propellant
volume return exactly 0; at web equal to the wall thickness, and when the
segment is only axially burned through, the formula branch is used. -/
theorem bates_zero_beyond_radial_wall (b : Bates) (j : ℕ) (w : ℝ)
    (h : 0.5 * (b.outer_diameter - b.core_diameter j) < w) :
    b.get_burn_area_per_segment j w = 0
      ∧ b.get_propellant_volume_per_segment w j = 0 := by
  constructor
  · unfold Bates.get_burn_area_per_segment
    rw [if_neg (not_le.mpr h)]
  · unfold Bates.get_propellant_volume_per_segment
    rw [if_neg (not_le.mpr h)]

/-- Witness for the amended C2: the scenario segment at web 0.04 m, past its
0.035 m radial wall. -/
theorem bates_zero_beyond_radial_wall_witness :
    0.5 * (bates_scenario.outer_diameter - bates_scenario.core_diameter 0)
        < 0.04
      ∧ bates_scenario.get_burn_area_per_segment 0 0.04 = 0
      ∧ bates_scenario.get_propellant_volume_per_segment 0.04 0 = 0 :=
  ⟨by norm_num [bates_scenario],
    (bates_zero_beyond_radial_wall bates_scenario 0 0.04
      (by norm_num [bates_scenario])).1,
    (bates_zero_beyond_radial_wall bates_scenario 0 0.04
      (by norm_num [bates_scenario])).2⟩

/-- C10: the short segment at web 0.034 m is burned through axially
(`2 * web = 0.068 > 0.01`) but not radially (`0.034 <= 0.035`), and both the
per-segment burn area and the propellant volume come out strictly
negative. -/
theorem bates_negative_when_axially_burned_through :
    2 * (0.034 : ℝ) > bates_short_segment.segment_length 0
      ∧ (0.034 : ℝ) ≤ 0.5 * (bates_short_segment.outer_diameter
          - bates_short_segment.core_diameter 0)
      ∧ bates_short_segment.get_burn_area_per_segment 0 0.034 < 0
      ∧ bates_short_segment.get_propellant_volume_per_segment 0.034 0 < 0 := by
  refine ⟨by norm_num [bates_short_segment],
    by norm_num [bates_short_segment], ?_, ?_⟩
  · unfold Bates.get_burn_area_per_segment
    rw [if_pos (by norm_num [bates_short_segment])]
    have h : ((bates_short_segment.outer_diameter ^ 2)
        - (bates_short_segment.core_diameter 0 + 2 * 0.034) ^ 2) / 2
        + ((bates_short_segment.segment_length 0 - 2 * 0.034)
            * (bates_short_segment.core_diameter 0 + 2 * 0.034))
        = -0.006326 := by
      norm_num [bates_short_segment]
    rw [h]
    exact mul_neg_of_pos_of_neg Real.pi_pos (by norm_num)
  · unfold Bates.get_propellant_volume_per_segment
    rw [if_pos (by norm_num [bates_short_segment])]
    have h : ((bates_short_segment.outer_diameter ^ 2)
        - ((bates_short_segment.core_diameter 0 + 2 * 0.034) ^ 2))
        * (bates_short_segment.segment_length 0 - 2 * 0.034)
        = -0.000026448 := by
      norm_num [bates_short_segment]
    rw [h]
    exact mul_neg_of_pos_of_neg (by positivity) (by norm_num)

/-- Calling `get_burn_area` with the two positional arguments `(x[i], k)`, as
`get_mass_flux_per_segment` does, raises `TypeError`: the method takes one
argument besides `self`. -/
theorem call_get_burn_area_two_args (b : Bates) (xi y : ℝ) :
    b.call_get_burn_area [xi, y] = Except.error typeErrorGetBurnArea := by
  unfold Bates.call_get_burn_area
  rw [dif_neg (by simp)]

/-- The inner `for k` accumulation propagates the `TypeError` of its first
iteration, for every segment index. -/
theorem total_grain_Ab_error (b : Bates) (xi : ℝ) (j : ℕ) :
    b.total_grain_Ab xi j = Except.error typeErrorGetBurnArea := by
  induction j with
  | zero =>
    unfold Bates.total_grain_Ab
    rw [call_get_burn_area_two_args]
    rfl
  | succ n ih =>
    unfold Bates.total_grain_Ab
    rw [ih]
    rfl

/-- Every matrix entry of the mass-flux computation raises `TypeError`. -/
theorem mass_flux_entry_error (b : Bates) (burn_rate : List ℝ) (ρ : ℝ)
    (x : List ℝ) (j i : ℕ) :
    b.mass_flux_entry burn_rate ρ x j i
      = Except.error typeErrorGetBurnArea := by
  unfold Bates.mass_flux_entry
  rw [total_grain_Ab_error]
  rfl

/-- A loop whose first iteration raises propagates that exception. -/
theorem exceptMapIdx_head_error {α : Type} (f : ℕ → Except String α)
    (e : String) (i : ℕ) (is : List ℕ) (hf : f i = Except.error e) :
    exceptMapIdx f (i :: is) = Except.error e := by
  unfold exceptMapIdx
  rw [hf]
  rfl

/-- C3 (code defect): for every BATES grain with at least one segment and at
least one time sample, `get_mass_flux_per_segment` raises `TypeError` at its
first inner iteration: the source passes the two positional arguments
`(x[i], k)` to `get_burn_area`, which accepts exactly one besides `self`.
The upstream-accumulation value the claim describes is never computed. -/
theorem bates_mass_flux_type_error (b : Bates) (burn_rate : List ℝ)
    (propellant_density : ℝ) (x : List ℝ)
    (hseg : b.segment_count ≠ 0) (hbr : burn_rate ≠ []) :
    b.get_mass_flux_per_segment burn_rate propellant_density x
      = Except.error typeErrorGetBurnArea := by
  obtain ⟨n, hn⟩ := Nat.exists_eq_succ_of_ne_zero hseg
  obtain ⟨m, hm⟩ : ∃ m, burn_rate.length = m + 1 := by
    cases burn_rate with
    | nil => exact absurd rfl hbr
    | cons a l => exact ⟨l.length, rfl⟩
  unfold Bates.get_mass_flux_per_segment
  rw [hn, hm, List.range_succ_eq_map, List.range_succ_eq_map]
  refine exceptMapIdx_head_error _ _ _ _ ?_
  refine exceptMapIdx_head_error _ _ _ _ ?_
  exact mass_flux_entry_error b burn_rate propellant_density x 0 0

/-- Witness for C3: the scenario grain (one segment) with one burn-rate
sample and one web sample. -/
theorem bates_mass_flux_type_error_witness :
    (bates_scenario.segment_count ≠ 0 ∧ ([0.001] : List ℝ) ≠ [])
      ∧ bates_scenario.get_mass_flux_per_segment [0.001] 1700 [0]
        = Except.error typeErrorGetBurnArea :=
  ⟨⟨by simp [bates_scenario], by simp⟩,
    bates_mass_flux_type_error bates_scenario [0.001] 1700 [0]
      (by simp [bates_scenario]) (by simp)⟩

end
